import Mathlib

/-
  Verification of the finance-tracking client logic of the Gatsby repository.

  The development shallow-embeds two variants of the finance state store
  (the localStorage-backed provider in `src/src/hooks/useFinanceData.tsx`
  and the API-backed provider in `src/Frontend/src/hooks/useFinanceData.tsx`),
  the API response handler (`src/Frontend/src/services/api.ts`), the derived
  analytics functions (`useAnalyticsData`, `SpendingPatterns`,
  `ComparisonTools`), and the validating UI handlers (`BudgetTracker`,
  `SavingsGoals`).  JavaScript numbers are modelled as rationals, dates as
  integers, and the stable `Array.prototype.sort` as a stable insertion sort.
-/

/- `Array.prototype.sort` with comparator `(a, b) => key(b) - key(a)` is a
   stable descending sort; it is modelled by a stable insertion sort. -/

/-- Insert `x` into `l` before the first element with a strictly smaller key
    (so among equal keys the earlier-processed element stays first). -/
def insertDescBy {α : Type} (key : α → ℚ) (x : α) : List α → List α
  | [] => [x]
  | h :: t => if key h ≤ key x then x :: h :: t else h :: insertDescBy key x t

/-- Stable insertion sort, descending by `key`. -/
def sortDescBy {α : Type} (key : α → ℚ) : List α → List α
  | [] => []
  | h :: t => insertDescBy key h (sortDescBy key t)

namespace LocalStore

/- Data model of `src/src/hooks/useFinanceData.tsx` (localStorage-backed). -/

inductive TransactionType
  | income
  | expense
deriving DecidableEq, Repr

structure Transaction where
  id : String
  amount : ℚ
  description : String
  category : String
  type : TransactionType
  date : Int
deriving DecidableEq, Repr

structure Budget where
  id : String
  category : String
  amount : ℚ
  spent : ℚ
deriving DecidableEq, Repr

structure SavingsGoal where
  id : String
  name : String
  targetAmount : ℚ
  currentAmount : ℚ
  deadline : Option Int
deriving DecidableEq, Repr

structure FinanceData where
  transactions : List Transaction
  budgets : List Budget
  savingsGoals : List SavingsGoal
deriving DecidableEq, Repr

/-- Source `totalIncome`: sum of amounts of income transactions. -/
def totalIncome (d : FinanceData) : ℚ :=
  ((d.transactions.filter (fun t => t.type = TransactionType.income)).map
    (fun t => t.amount)).sum

/-- Source `totalExpenses`: sum of amounts of expense transactions. -/
def totalExpenses (d : FinanceData) : ℚ :=
  ((d.transactions.filter (fun t => t.type = TransactionType.expense)).map
    (fun t => t.amount)).sum

/-- Source `totalSavings`: sum of the savings goals' current amounts. -/
def totalSavings (d : FinanceData) : ℚ :=
  (d.savingsGoals.map (fun g => g.currentAmount)).sum

/-- Source `availableBalance = totalIncome - totalExpenses - totalSavings`. -/
def availableBalance (d : FinanceData) : ℚ :=
  totalIncome d - totalExpenses d - totalSavings d

/- Mutation operations of the localStorage-backed provider.  The JavaScript
   `Date.now().toString()` identifier and `new Date().toISOString()` date are
   passed in as explicit parameters `newId` / `nowDate`. -/

/-- Fields of `addTransaction`'s argument (`Omit<Transaction, 'id'>`). -/
structure TransactionFields where
  amount : ℚ
  description : String
  category : String
  type : TransactionType
  date : Int
deriving DecidableEq, Repr

/-- Source `addTransaction`: prepend the new transaction; when it is an expense,
    add its amount to the `spent` of every budget of the same category. -/
def addTransaction (d : FinanceData) (tx : TransactionFields) (newId : String) :
    FinanceData :=
  let newTransaction : Transaction :=
    { id := newId, amount := tx.amount, description := tx.description,
      category := tx.category, type := tx.type, date := tx.date }
  if tx.type = TransactionType.expense then
    { d with
      transactions := newTransaction :: d.transactions,
      budgets := d.budgets.map (fun budget =>
        if budget.category = tx.category then
          { budget with spent := budget.spent + tx.amount }
        else budget) }
  else
    { d with transactions := newTransaction :: d.transactions }

/-- Source `deleteTransaction`: look the transaction up by id; when it is an expense,
    decrement matching budgets' `spent` clamped at 0; remove it. -/
def deleteTransaction (d : FinanceData) (id : String) : FinanceData :=
  match d.transactions.find? (fun t => t.id = id) with
  | none => d
  | some transaction =>
    if transaction.type = TransactionType.expense then
      { d with
        transactions := d.transactions.filter (fun t => ¬ t.id = id),
        budgets := d.budgets.map (fun budget =>
          if budget.category = transaction.category then
            { budget with spent := max 0 (budget.spent - transaction.amount) }
          else budget) }
    else
      { d with transactions := d.transactions.filter (fun t => ¬ t.id = id) }

/-- Fields of `addBudget`'s argument (`Omit<Budget, 'id' | 'spent'>`). -/
structure BudgetFields where
  category : String
  amount : ℚ
deriving DecidableEq, Repr

/-- Source `addBudget`: append a new budget with `spent = 0`. -/
def addBudget (d : FinanceData) (b : BudgetFields) (newId : String) : FinanceData :=
  { d with budgets := d.budgets ++
      [{ id := newId, category := b.category, amount := b.amount, spent := 0 }] }

/-- Patch type of `updateBudget` (each field optionally overridden). -/
structure BudgetPatch where
  id : Option String := none
  category : Option String := none
  amount : Option ℚ := none
  spent : Option ℚ := none
deriving DecidableEq, Repr

/-- JavaScript object spread `{ ...budget, ...budgetData }`. -/
def mergeBudget (b : Budget) (p : BudgetPatch) : Budget :=
  { id := p.id.getD b.id, category := p.category.getD b.category,
    amount := p.amount.getD b.amount, spent := p.spent.getD b.spent }

/-- Source `updateBudget`: merge the patch into the budget with the given id. -/
def updateBudget (d : FinanceData) (id : String) (p : BudgetPatch) : FinanceData :=
  { d with budgets := d.budgets.map (fun budget =>
      if budget.id = id then mergeBudget budget p else budget) }

/-- Source `deleteBudget`: remove the budget with the given id. -/
def deleteBudget (d : FinanceData) (id : String) : FinanceData :=
  { d with budgets := d.budgets.filter (fun b => ¬ b.id = id) }

/-- Fields of `addSavingsGoal`'s argument. -/
structure SavingsGoalFields where
  name : String
  targetAmount : ℚ
  deadline : Option Int
deriving DecidableEq, Repr

/-- Source `addSavingsGoal`: append a new goal with `currentAmount = 0`. -/
def addSavingsGoal (d : FinanceData) (g : SavingsGoalFields) (newId : String) :
    FinanceData :=
  { d with savingsGoals := d.savingsGoals ++
      [{ id := newId, name := g.name, targetAmount := g.targetAmount,
         currentAmount := 0, deadline := g.deadline }] }

/-- Patch type of `updateSavingsGoal`. -/
structure SavingsGoalPatch where
  id : Option String := none
  name : Option String := none
  targetAmount : Option ℚ := none
  currentAmount : Option ℚ := none
  deadline : Option (Option Int) := none
deriving DecidableEq, Repr

/-- JavaScript object spread `{ ...goal, ...goalData }`. -/
def mergeSavingsGoal (g : SavingsGoal) (p : SavingsGoalPatch) : SavingsGoal :=
  { id := p.id.getD g.id, name := p.name.getD g.name,
    targetAmount := p.targetAmount.getD g.targetAmount,
    currentAmount := p.currentAmount.getD g.currentAmount,
    deadline := p.deadline.getD g.deadline }

/-- Source `updateSavingsGoal`: merge the patch into the goal with the given id. -/
def updateSavingsGoal (d : FinanceData) (id : String) (p : SavingsGoalPatch) :
    FinanceData :=
  { d with savingsGoals := d.savingsGoals.map (fun goal =>
      if goal.id = id then mergeSavingsGoal goal p else goal) }

/-- The offsetting income transaction created by `deleteSavingsGoal`. -/
def transferTransaction (g : SavingsGoal) (newId : String) (nowDate : Int) :
    Transaction :=
  { id := newId, amount := g.currentAmount,
    description := "Transferred from " ++ g.name ++ " savings goal",
    category := "Savings Transfer", type := TransactionType.income,
    date := nowDate }

/-- Source `deleteSavingsGoal`: remove the goal; when its `currentAmount` was
    strictly positive, prepend the offsetting income transaction. -/
def deleteSavingsGoal (d : FinanceData) (id : String) (newId : String)
    (nowDate : Int) : FinanceData :=
  match d.savingsGoals.find? (fun g => g.id = id) with
  | none => d
  | some goalToDelete =>
    if goalToDelete.currentAmount > 0 then
      { d with
        savingsGoals := d.savingsGoals.filter (fun g => ¬ g.id = id),
        transactions := transferTransaction goalToDelete newId nowDate ::
          d.transactions }
    else
      { d with savingsGoals := d.savingsGoals.filter (fun g => ¬ g.id = id) }

end LocalStore

namespace Api

/- `src/Frontend/src/services/api.ts` and
   `src/Frontend/src/hooks/useFinanceData.tsx` (API-backed provider). -/

/-- Model of a `fetch` `Response`: status, status text, the body as text, and
    the value `response.json()` would produce.  `Response.ok` holds exactly for
    statuses 200–299. -/
structure ResponseModel (J : Type) where
  status : Nat
  statusText : String
  bodyText : String
  jsonBody : J
deriving DecidableEq, Repr

/-- Source `Response.ok`. -/
def ResponseModel.ok {J : Type} (r : ResponseModel J) : Bool :=
  200 ≤ r.status && r.status ≤ 299

/-- Source `handleResponse`: throw the body text (or the status text when the body is
    empty) on a non-ok response; return `null` on 204; otherwise the parsed
    JSON body. -/
def handleResponse {J : Type} (r : ResponseModel J) : Except String (Option J) :=
  if ¬ r.ok then
    Except.error (if r.bodyText = "" then r.statusText else r.bodyText)
  else if r.status = 204 then
    Except.ok none
  else
    Except.ok (some r.jsonBody)

/-- Transaction of the API-backed provider (has `comments` and `tags`). -/
structure Transaction where
  id : String
  amount : ℚ
  description : String
  comments : String
  tags : List String
  category : String
  type : LocalStore.TransactionType
  date : Int
deriving DecidableEq, Repr

/-- Budget of the API-backed provider (period-scoped). -/
structure Budget where
  id : String
  category : String
  amount : ℚ
  spent : ℚ
  month : Nat
  year : Nat
  recurring : Bool
  period : String
deriving DecidableEq, Repr

/-- Savings goal of the API-backed provider. -/
structure SavingsGoal where
  id : String
  name : String
  targetAmount : ℚ
  currentAmount : ℚ
  deadline : Option Int
deriving DecidableEq, Repr

/-- The `/summary` response. -/
structure Summary where
  totalIncome : ℚ
  totalExpenses : ℚ
  totalSavings : ℚ
  availableBalance : ℚ
deriving DecidableEq, Repr

/-- The provider's state: the pieces of `useState` it holds. -/
structure State where
  transactions : List Transaction
  budgets : List Budget
  savingsGoals : List SavingsGoal
  loading : Bool
  error : Option String
  totalIncome : ℚ
  totalExpenses : ℚ
  totalSavings : ℚ
  availableBalance : ℚ
deriving DecidableEq, Repr

/-- The local snapshot named by the spec: the three entity lists and the four
    summary totals (`loading`/`error` are control state, not snapshot). -/
def snapshotOf (st : State) :
    List Transaction × List Budget × List SavingsGoal × ℚ × ℚ × ℚ × ℚ :=
  (st.transactions, st.budgets, st.savingsGoals, st.totalIncome,
   st.totalExpenses, st.totalSavings, st.availableBalance)

/-- Source `handleApiError`: record `Failed to <message>` and clear `loading`. -/
def handleApiError (st : State) (message : String) : State :=
  { st with error := some ("Failed to " ++ message), loading := false }

/- Each asynchronous operation is embedded as a function of the outcomes of
   the network calls it makes, each outcome an `Except String` value. -/

/-- Source `addTransaction`: on create success prepend the server-returned
    transaction, then re-fetch period budgets and the summary (the summary
    re-fetch updates income, expenses and available balance, not savings);
    any failure is routed to `handleApiError`. -/
def addTransaction (st : State)
    (createRes : Except String Transaction)
    (refreshRes : Except String (List Budget × Summary)) : State :=
  match createRes with
  | Except.error _ => handleApiError st "add transaction"
  | Except.ok newTransaction =>
    let st1 := { st with transactions := newTransaction :: st.transactions }
    match refreshRes with
    | Except.error _ => handleApiError st1 "add transaction"
    | Except.ok (budgetData, summaryData) =>
      { st1 with
        budgets := budgetData,
        totalIncome := summaryData.totalIncome,
        totalExpenses := summaryData.totalExpenses,
        availableBalance := summaryData.availableBalance }

/-- Source `deleteTransaction`: on delete success remove the transaction locally,
    then re-fetch period budgets and the summary. -/
def deleteTransaction (st : State) (id : String)
    (deleteRes : Except String Unit)
    (refreshRes : Except String (List Budget × Summary)) : State :=
  match deleteRes with
  | Except.error _ => handleApiError st "delete transaction"
  | Except.ok _ =>
    let st1 := { st with transactions := st.transactions.filter (fun t => ¬ t.id = id) }
    match refreshRes with
    | Except.error _ => handleApiError st1 "delete transaction"
    | Except.ok (budgetData, summaryData) =>
      { st1 with
        budgets := budgetData,
        totalIncome := summaryData.totalIncome,
        totalExpenses := summaryData.totalExpenses,
        availableBalance := summaryData.availableBalance }

/-- Source `addBudget`: on create success append the server-returned budget. -/
def addBudget (st : State) (createRes : Except String Budget) : State :=
  match createRes with
  | Except.error _ => handleApiError st "add budget"
  | Except.ok newBudget => { st with budgets := st.budgets ++ [newBudget] }

/-- Source `updateBudget`: on success replace the matching budget with the
    server-returned one. -/
def updateBudget (st : State) (id : String)
    (updateRes : Except String Budget) : State :=
  match updateRes with
  | Except.error _ => handleApiError st "update budget"
  | Except.ok updatedBudget =>
    { st with budgets := st.budgets.map (fun budget =>
        if budget.id = id then updatedBudget else budget) }

/-- Source `deleteBudget`: on success remove the matching budget. -/
def deleteBudget (st : State) (id : String)
    (deleteRes : Except String Unit) : State :=
  match deleteRes with
  | Except.error _ => handleApiError st "delete budget"
  | Except.ok _ => { st with budgets := st.budgets.filter (fun b => ¬ b.id = id) }

/-- Source `addSavingsGoal`: on success append the server-returned goal. -/
def addSavingsGoal (st : State) (createRes : Except String SavingsGoal) : State :=
  match createRes with
  | Except.error _ => handleApiError st "add savings goal"
  | Except.ok newGoal => { st with savingsGoals := st.savingsGoals ++ [newGoal] }

/-- Source `updateSavingsGoal`: on success replace the matching goal; when the patch
    carried a truthy `currentAmount` (a contribution), additionally re-fetch
    transactions and the summary (updating expenses, savings and available
    balance, not income). -/
def updateSavingsGoal (st : State) (id : String)
    (patchHasCurrentAmount : Bool)
    (updateRes : Except String SavingsGoal)
    (refreshRes : Except String (List Transaction × Summary)) : State :=
  match updateRes with
  | Except.error _ => handleApiError st "update savings goal"
  | Except.ok updatedGoal =>
    let st1 := { st with savingsGoals := st.savingsGoals.map (fun goal =>
        if goal.id = id then updatedGoal else goal) }
    if patchHasCurrentAmount then
      match refreshRes with
      | Except.error _ => handleApiError st1 "update savings goal"
      | Except.ok (transactionData, summaryData) =>
        { st1 with
          transactions := transactionData,
          totalExpenses := summaryData.totalExpenses,
          totalSavings := summaryData.totalSavings,
          availableBalance := summaryData.availableBalance }
    else st1

/-- Source `deleteSavingsGoal`: on delete success remove the goal locally, then
    re-fetch transactions and the summary (updating income, savings and
    available balance, not expenses). -/
def deleteSavingsGoal (st : State) (id : String)
    (deleteRes : Except String Unit)
    (refreshRes : Except String (List Transaction × Summary)) : State :=
  match deleteRes with
  | Except.error _ => handleApiError st "delete savings goal"
  | Except.ok _ =>
    let st1 := { st with savingsGoals := st.savingsGoals.filter (fun g => ¬ g.id = id) }
    match refreshRes with
    | Except.error _ => handleApiError st1 "delete savings goal"
    | Except.ok (transactionData, summaryData) =>
      { st1 with
        transactions := transactionData,
        totalIncome := summaryData.totalIncome,
        totalSavings := summaryData.totalSavings,
        availableBalance := summaryData.availableBalance }

end Api

namespace Handlers

/- Validating UI handlers of the API-backed app (`BudgetTracker.handleAddBudget`
   and `SavingsGoals.handleContribute`).  `parseFloat` of the text input is
   modelled as `Option ℚ` (`none` standing for `NaN`). -/

/-- The argument `handleAddBudget` would pass to the store's `addBudget`. -/
structure NewBudgetRequest where
  category : String
  amount : ℚ
  month : Nat
  year : Nat
  recurring : Bool
deriving DecidableEq, Repr

/-- Source `handleAddBudget`: reject (returning `none`, i.e. no store call) when the
    displayed period's budgets already contain the category, when the category
    is missing, or when the amount fails to parse or is non-positive. -/
def handleAddBudget (budgets : List Api.Budget) (newCategory : String)
    (newAmount : Option ℚ) (isRecurring : Bool) (month year : Nat) :
    Option NewBudgetRequest :=
  if budgets.any (fun budget => budget.category = newCategory) then none
  else if newCategory = "" then none
  else
    match newAmount with
    | none => none
    | some amount =>
      if amount ≤ 0 then none
      else some { category := newCategory, amount := amount, month := month,
                  year := year, recurring := isRecurring }

/-- Handler `handleAddBudget` wired to the store: the store is touched only when
    validation passes. -/
def runHandleAddBudget (st : Api.State) (newCategory : String)
    (newAmount : Option ℚ) (isRecurring : Bool) (month year : Nat)
    (createRes : Except String Api.Budget) : Api.State :=
  match handleAddBudget st.budgets newCategory newAmount isRecurring month year with
  | none => st
  | some _ => Api.addBudget st createRes

/-- Source `handleContribute`: reject when the amount fails to parse, is
    non-positive, or exceeds the available balance; otherwise the store is
    asked to set `currentAmount := goal.currentAmount + amount`. -/
def handleContribute (selectedGoal : Api.SavingsGoal)
    (contributionAmount : Option ℚ) (availableBalance : ℚ) :
    Option (String × ℚ) :=
  match contributionAmount with
  | none => none
  | some amount =>
    if amount ≤ 0 then none
    else if amount > availableBalance then none
    else some (selectedGoal.id, selectedGoal.currentAmount + amount)

/-- Handler `handleContribute` wired to the store: the store is touched only when
    validation passes (the patch's `currentAmount` is truthy iff non-zero). -/
def runHandleContribute (st : Api.State) (selectedGoal : Api.SavingsGoal)
    (contributionAmount : Option ℚ)
    (updateRes : Except String Api.SavingsGoal)
    (refreshRes : Except String (List Api.Transaction × Api.Summary)) :
    Api.State :=
  match handleContribute selectedGoal contributionAmount st.availableBalance with
  | none => st
  | some (id, newAmount) =>
    Api.updateSavingsGoal st id (decide (¬ newAmount = 0)) updateRes refreshRes

end Handlers

namespace Analytics

/- Pure analytics of `useAnalyticsData` (Frontend app): month-over-month
   change and per-category spending.  Month boundaries are passed in as an
   integer date range `[lo, hi]`. -/

/-- The filter of `currentMonthExpenses` / `previousMonthExpenses`:
    expense transactions dated within `[lo, hi]`. -/
def monthExpenses (transactions : List Api.Transaction) (lo hi : Int) :
    List Api.Transaction :=
  transactions.filter (fun t =>
    t.type = LocalStore.TransactionType.expense ∧ lo ≤ t.date ∧ t.date ≤ hi)

/-- Source `reduce((sum, t) => sum + t.amount, 0)`. -/
def reduceAmount (transactions : List Api.Transaction) : ℚ :=
  transactions.foldl (fun sum t => sum + t.amount) 0

/-- Source `monthOverMonthChange`: 0 when the previous total is 0, otherwise the
    percentage change. -/
def monthOverMonthChange (transactions : List Api.Transaction)
    (curLo curHi prevLo prevHi : Int) : ℚ :=
  let currentTotal := reduceAmount (monthExpenses transactions curLo curHi)
  let previousTotal := reduceAmount (monthExpenses transactions prevLo prevHi)
  if previousTotal = 0 then 0
  else ((currentTotal - previousTotal) / previousTotal) * 100

/-- An accumulator entry of the category-spending reduce. -/
structure CategoryTotal where
  category : String
  amount : ℚ
deriving DecidableEq, Repr

/-- One step of the reduce: add to the first entry with the transaction's
    category (`acc.find`), or push a fresh entry at the end. -/
def upsertCategory (acc : List CategoryTotal) (transaction : Api.Transaction) :
    List CategoryTotal :=
  match acc with
  | [] => [{ category := transaction.category, amount := transaction.amount }]
  | c :: rest =>
    if c.category = transaction.category then
      { c with amount := c.amount + transaction.amount } :: rest
    else c :: upsertCategory rest transaction

/-- The reduce of `currentMonthSpendingByCategory` before sorting. -/
def spendingReduce (transactions : List Api.Transaction) : List CategoryTotal :=
  transactions.foldl upsertCategory []

/-- Source `currentMonthSpendingByCategory`: group the month's expenses by category,
    summing amounts, then sort descending by amount (stably). -/
def currentMonthSpendingByCategory (transactions : List Api.Transaction)
    (lo hi : Int) : List CategoryTotal :=
  sortDescBy (fun c => c.amount) (spendingReduce (monthExpenses transactions lo hi))

end Analytics

namespace Patterns

/- Recurring-expense detection of
   `src/src/components/analytics/SpendingPatterns.tsx` (localStorage app). -/

open LocalStore

/-- One step of the grouping reduce: append the transaction to the first group
    with its description, or push a fresh group. -/
def upsertGroup (acc : List (String × List Transaction)) (t : Transaction) :
    List (String × List Transaction) :=
  match acc with
  | [] => [(t.description, [t])]
  | (merchant, group) :: rest =>
    if merchant = t.description then (merchant, group ++ [t]) :: rest
    else (merchant, group) :: upsertGroup rest t

/-- Source `merchantTransactions`: expense transactions grouped by exact description,
    groups and members in encounter order. -/
def merchantTransactions (transactions : List Transaction) :
    List (String × List Transaction) :=
  (transactions.filter (fun t => t.type = TransactionType.expense)).foldl
    upsertGroup []

/-- An entry of `potentialRecurring`. -/
structure RecurringEntry where
  merchant : String
  frequency : Nat
  avgAmount : ℚ
  consistent : Bool
  lastTransaction : Option Int
  annualImpact : ℚ
deriving DecidableEq, Repr

/-- The map body of `potentialRecurring`.  `consistent` mirrors
    `Math.abs(amt - avg) / avg < 0.1`; with the data model's positive amounts
    the average is positive, so the rational division agrees with the source. -/
def mkRecurringEntry (merchant : String) (txs : List Transaction) :
    RecurringEntry :=
  let amounts := txs.map (fun t => t.amount)
  let avgAmount := amounts.sum / (amounts.length : ℚ)
  let consistent := amounts.all (fun amt => |amt - avgAmount| / avgAmount < 1 / 10)
  { merchant := merchant,
    frequency := txs.length,
    avgAmount := avgAmount,
    consistent := consistent,
    lastTransaction := txs.head?.map (fun t => t.date),
    annualImpact := avgAmount * (12 / (if txs.length < 3 then 1 else 3)) }

/-- Source `potentialRecurring`: keep groups of size ≥ 2, build entries, keep the
    consistent ones, sort descending by average amount. -/
def potentialRecurring (transactions : List Transaction) : List RecurringEntry :=
  sortDescBy (fun e => e.avgAmount)
    ((((merchantTransactions transactions).filter
        (fun mg => 2 ≤ mg.2.length)).map
        (fun mg => mkRecurringEntry mg.1 mg.2)).filter
        (fun e => e.consistent))

end Patterns

namespace Comparison

/- Budget-vs-actual of `src/src/components/analytics/ComparisonTools.tsx`
   (localStorage app). -/

inductive BudgetStatus
  | over
  | warning
  | good
deriving DecidableEq, Repr

structure BudgetComparisonEntry where
  category : String
  budgeted : ℚ
  spent : ℚ
  remaining : ℚ
  percentUsed : ℚ
  status : BudgetStatus
deriving DecidableEq, Repr

/-- The map body of `budgetComparison`.  `budget.spent || 0` coalesces only
    `0` (to itself) for a total rational field, so it is the identity. -/
def budgetComparisonEntry (budget : LocalStore.Budget) : BudgetComparisonEntry :=
  let spent := budget.spent
  let remaining := max 0 (budget.amount - spent)
  let percentUsed := spent / budget.amount * 100
  let status :=
    if percentUsed > 100 then BudgetStatus.over
    else if percentUsed > 85 then BudgetStatus.warning
    else BudgetStatus.good
  { category := budget.category, budgeted := budget.amount, spent := spent,
    remaining := remaining, percentUsed := percentUsed, status := status }

/-- Source `budgetComparison`: map the entry computation and sort descending by
    percent used. -/
def budgetComparison (budgets : List LocalStore.Budget) :
    List BudgetComparisonEntry :=
  sortDescBy (fun e => e.percentUsed) (budgets.map budgetComparisonEntry)

end Comparison

/- ------------------------------------------------------------------ -/
/- Helper lemmas                                                      -/
/- ------------------------------------------------------------------ -/

namespace Helper

theorem sum_map_filter_eq {α : Type} (l : List α) (p : α → Bool) (f : α → ℚ) :
    ((l.filter p).map f).sum =
      (l.map (fun a => if p a then f a else 0)).sum := by
  induction l with
  | nil => simp
  | cons h t ih =>
    by_cases hp : p h <;> simp [List.filter_cons, hp, ih]

end Helper

/- ------------------------------------------------------------------ -/
/- Claims                                                             -/
/- ------------------------------------------------------------------ -/

/-- Concrete data of the C8 scenario: income 1500, expenses 25 (Food) and
    50 (Education), no savings goals. -/
def scenarioData : LocalStore.FinanceData :=
  { transactions := [
      { id := "1", amount := 1500, description := "Internship Stipend",
        category := "Salary", type := LocalStore.TransactionType.income,
        date := 0 },
      { id := "2", amount := 25, description := "Coffee shop",
        category := "Food", type := LocalStore.TransactionType.expense,
        date := 1 },
      { id := "3", amount := 50, description := "Textbooks",
        category := "Education", type := LocalStore.TransactionType.expense,
        date := 2 }],
    budgets := [], savingsGoals := [] }

/-- C8: the financial summary satisfies `totalIncome` = sum of income
    amounts, `totalExpenses` = sum of expense amounts, `totalSavings` = sum of
    goals' current amounts, `availableBalance = totalIncome - totalExpenses -
    totalSavings`; and on the scenario data (income 1500, expenses 25 and 50,
    zero savings) the totals are 1500, 75 and 1425. -/
theorem summary_totals_spec :
    (∀ d : LocalStore.FinanceData,
      LocalStore.totalIncome d =
        (d.transactions.map (fun t =>
          if t.type = LocalStore.TransactionType.income then t.amount else 0)).sum ∧
      LocalStore.totalExpenses d =
        (d.transactions.map (fun t =>
          if t.type = LocalStore.TransactionType.expense then t.amount else 0)).sum ∧
      LocalStore.totalSavings d =
        (d.savingsGoals.map (fun g => g.currentAmount)).sum ∧
      LocalStore.availableBalance d =
        LocalStore.totalIncome d - LocalStore.totalExpenses d -
          LocalStore.totalSavings d) ∧
    LocalStore.totalIncome scenarioData = 1500 ∧
    LocalStore.totalExpenses scenarioData = 75 ∧
    LocalStore.totalSavings scenarioData = 0 ∧
    LocalStore.availableBalance scenarioData = 1425 := by
  refine ⟨fun d => ⟨?_, ?_, rfl, rfl⟩, ?_, ?_, ?_, ?_⟩
  · rw [LocalStore.totalIncome, Helper.sum_map_filter_eq]
    simp
  · rw [LocalStore.totalExpenses, Helper.sum_map_filter_eq]
    simp
  · simp +decide [scenarioData, LocalStore.totalIncome, List.filter_cons]
  · simp +decide [scenarioData, LocalStore.totalExpenses, List.filter_cons]
    norm_num
  · simp [scenarioData, LocalStore.totalSavings]
  · simp +decide [scenarioData, LocalStore.availableBalance, LocalStore.totalIncome,
      LocalStore.totalExpenses, LocalStore.totalSavings, List.filter_cons]
    norm_num

/-- C6: month-over-month change is 0 whenever the previous month's expense
    total is 0, and otherwise equals
    `((current - previous) / previous) * 100`. -/
theorem monthOverMonthChange_spec (transactions : List Api.Transaction)
    (curLo curHi prevLo prevHi : Int) :
    (Analytics.reduceAmount (Analytics.monthExpenses transactions prevLo prevHi) = 0 →
      Analytics.monthOverMonthChange transactions curLo curHi prevLo prevHi = 0) ∧
    (Analytics.reduceAmount (Analytics.monthExpenses transactions prevLo prevHi) ≠ 0 →
      Analytics.monthOverMonthChange transactions curLo curHi prevLo prevHi =
        ((Analytics.reduceAmount (Analytics.monthExpenses transactions curLo curHi) -
          Analytics.reduceAmount (Analytics.monthExpenses transactions prevLo prevHi)) /
         Analytics.reduceAmount (Analytics.monthExpenses transactions prevLo prevHi)) *
          100) := by
  constructor
  · intro h
    simp [Analytics.monthOverMonthChange, h]
  · intro h
    simp [Analytics.monthOverMonthChange, h]

/-- Witness for C6: with no transactions at all, the previous total is 0 and
    the change is exactly 0. -/
theorem monthOverMonthChange_spec_witness :
    Analytics.reduceAmount (Analytics.monthExpenses [] 2 3) = 0 ∧
    Analytics.monthOverMonthChange [] 0 1 2 3 = 0 :=
  ⟨rfl, (monthOverMonthChange_spec [] 0 1 2 3).1 rfl⟩

/-- C5: the response handler fails with the body text (or the status text
    when the body is empty) on any non-2xx status, yields `null` on 204, and
    yields the parsed JSON body on any other 2xx status. -/
theorem handleResponse_spec {J : Type} (r : Api.ResponseModel J) :
    (¬ (200 ≤ r.status ∧ r.status ≤ 299) →
      Api.handleResponse r =
        Except.error (if r.bodyText = "" then r.statusText else r.bodyText)) ∧
    (r.status = 204 → Api.handleResponse r = Except.ok none) ∧
    (200 ≤ r.status → r.status ≤ 299 → r.status ≠ 204 →
      Api.handleResponse r = Except.ok (some r.jsonBody)) := by
  refine ⟨fun h => ?_, fun h => ?_, fun h1 h2 h3 => ?_⟩
  · have hok : ¬ (r.ok = true) := by
      simp only [Api.ResponseModel.ok, Bool.and_eq_true, decide_eq_true_eq]
      exact fun hc => h hc
    simp [Api.handleResponse, hok]
  · have hok : r.ok = true := by
      simp [Api.ResponseModel.ok, h]
    simp [Api.handleResponse, hok, h]
  · have hok : r.ok = true := by
      simp [Api.ResponseModel.ok, h1, h2]
    simp [Api.handleResponse, hok, h3]

/-- Witness for C5: a 404 with empty body fails with the status text, a 204
    yields `null`, and a 200 yields the parsed body. -/
theorem handleResponse_spec_witness :
    Api.handleResponse
        ({ status := 404, statusText := "Not Found", bodyText := "",
           jsonBody := (7 : Nat) } : Api.ResponseModel Nat) =
      Except.error "Not Found" ∧
    Api.handleResponse
        ({ status := 204, statusText := "No Content", bodyText := "",
           jsonBody := (7 : Nat) } : Api.ResponseModel Nat) =
      Except.ok none ∧
    Api.handleResponse
        ({ status := 200, statusText := "OK", bodyText := "{}",
           jsonBody := (7 : Nat) } : Api.ResponseModel Nat) =
      Except.ok (some 7) := by
  refine ⟨?_, ?_, ?_⟩
  · have h := (handleResponse_spec
      ({ status := 404, statusText := "Not Found", bodyText := "",
         jsonBody := (7 : Nat) } : Api.ResponseModel Nat)).1 (by decide)
    simpa using h
  · exact (handleResponse_spec _).2.1 rfl
  · exact (handleResponse_spec
      ({ status := 200, statusText := "OK", bodyText := "{}",
         jsonBody := (7 : Nat) } : Api.ResponseModel Nat)).2.2
      (by decide) (by decide) (by decide)


/-- C3: for a budget with positive allocation, percent-used equals
    `spent / amount * 100`, the status is `over` exactly when percent-used
    exceeds 100, `warning` exactly when it is in (85, 100], and `good`
    exactly when it is at most 85 — a partition of all inputs. -/
theorem budget_status_partition (budget : LocalStore.Budget)
    (hamount : 0 < budget.amount) :
    (Comparison.budgetComparisonEntry budget).percentUsed =
      budget.spent / budget.amount * 100 ∧
    ((Comparison.budgetComparisonEntry budget).status = Comparison.BudgetStatus.over ↔
      100 < (Comparison.budgetComparisonEntry budget).percentUsed) ∧
    ((Comparison.budgetComparisonEntry budget).status = Comparison.BudgetStatus.warning ↔
      85 < (Comparison.budgetComparisonEntry budget).percentUsed ∧
        (Comparison.budgetComparisonEntry budget).percentUsed ≤ 100) ∧
    ((Comparison.budgetComparisonEntry budget).status = Comparison.BudgetStatus.good ↔
      (Comparison.budgetComparisonEntry budget).percentUsed ≤ 85) := by
  have hpu : (Comparison.budgetComparisonEntry budget).percentUsed =
      budget.spent / budget.amount * 100 := rfl
  have hst : (Comparison.budgetComparisonEntry budget).status =
      (if budget.spent / budget.amount * 100 > 100 then Comparison.BudgetStatus.over
       else if budget.spent / budget.amount * 100 > 85 then
         Comparison.BudgetStatus.warning
       else Comparison.BudgetStatus.good) := rfl
  refine ⟨hpu, ?_⟩
  rw [hst, hpu]
  split_ifs with h1 h2
  · refine ⟨by simp [h1], ?_, ?_⟩
    · simp only [iff_false_intro (by decide :
        ¬ Comparison.BudgetStatus.over = Comparison.BudgetStatus.warning),
        false_iff]
      intro hc
      linarith [hc.2]
    · simp only [iff_false_intro (by decide :
        ¬ Comparison.BudgetStatus.over = Comparison.BudgetStatus.good),
        false_iff]
      intro hc
      linarith
  · refine ⟨?_, ?_, ?_⟩
    · simp only [iff_false_intro (by decide :
        ¬ Comparison.BudgetStatus.warning = Comparison.BudgetStatus.over),
        false_iff]
      intro hc
      linarith
    · simp only [iff_true_intro (rfl :
        Comparison.BudgetStatus.warning = Comparison.BudgetStatus.warning),
        true_iff]
      exact ⟨h2, by linarith⟩
    · simp only [iff_false_intro (by decide :
        ¬ Comparison.BudgetStatus.warning = Comparison.BudgetStatus.good),
        false_iff]
      intro hc
      linarith
  · refine ⟨?_, ?_, ?_⟩
    · simp only [iff_false_intro (by decide :
        ¬ Comparison.BudgetStatus.good = Comparison.BudgetStatus.over),
        false_iff]
      intro hc
      linarith
    · simp only [iff_false_intro (by decide :
        ¬ Comparison.BudgetStatus.good = Comparison.BudgetStatus.warning),
        false_iff]
      intro hc
      linarith [hc.1]
    · simp only [iff_true_intro (rfl :
        Comparison.BudgetStatus.good = Comparison.BudgetStatus.good), true_iff]
      linarith

/-- Witness for C3: with allocation 100 and spent 85 (percent-used 85.0) the
    status is `good`; with allocation 10000 and spent 8501 (85.01) it is
    `warning`; with allocation 10000 and spent 10001 (100.01) it is `over`. -/
theorem budget_status_partition_witness :
    (Comparison.budgetComparisonEntry
        { id := "1", category := "Food", amount := 100, spent := 85 }).status =
      Comparison.BudgetStatus.good ∧
    (Comparison.budgetComparisonEntry
        { id := "2", category := "Food", amount := 10000, spent := 8501 }).status =
      Comparison.BudgetStatus.warning ∧
    (Comparison.budgetComparisonEntry
        { id := "3", category := "Food", amount := 10000, spent := 10001 }).status =
      Comparison.BudgetStatus.over := by
  refine ⟨?_, ?_, ?_⟩
  · exact (budget_status_partition
      { id := "1", category := "Food", amount := 100, spent := 85 }
      (by norm_num)).2.2.2.mpr (by norm_num [Comparison.budgetComparisonEntry])
  · exact (budget_status_partition
      { id := "2", category := "Food", amount := 10000, spent := 8501 }
      (by norm_num)).2.2.1.mpr
      (by norm_num [Comparison.budgetComparisonEntry])
  · exact (budget_status_partition
      { id := "3", category := "Food", amount := 10000, spent := 10001 }
      (by norm_num)).2.1.mpr (by norm_num [Comparison.budgetComparisonEntry])

/-- C7: each client-side validation failure — an already-budgeted category in
    the displayed period, a missing category, an unparsable or non-positive
    amount, or a contribution that fails to parse, is non-positive, or
    exceeds the available balance — leaves the store state completely
    untouched: no store mutator (hence no network call) runs and the store's
    error field is unchanged. -/
theorem validation_rejected_before_network :
    (∀ (st : Api.State) (newCategory : String) (newAmount : Option ℚ)
       (isRecurring : Bool) (month year : Nat)
       (createRes : Except String Api.Budget),
      (st.budgets.any (fun budget => budget.category = newCategory) = true ∨
        newCategory = "" ∨ newAmount = none ∨
        (∀ a, newAmount = some a → a ≤ 0)) →
      Handlers.runHandleAddBudget st newCategory newAmount isRecurring month
          year createRes = st) ∧
    (∀ (st : Api.State) (selectedGoal : Api.SavingsGoal)
       (contributionAmount : Option ℚ)
       (updateRes : Except String Api.SavingsGoal)
       (refreshRes : Except String (List Api.Transaction × Api.Summary)),
      (contributionAmount = none ∨
        (∀ a, contributionAmount = some a →
          a ≤ 0 ∨ st.availableBalance < a)) →
      Handlers.runHandleContribute st selectedGoal contributionAmount
          updateRes refreshRes = st) := by
  constructor
  · intro st newCategory newAmount isRecurring month year createRes h
    have hnone : Handlers.handleAddBudget st.budgets newCategory newAmount
        isRecurring month year = none := by
      rcases h with h | h | h | h
      · simp [Handlers.handleAddBudget, h]
      · simp [Handlers.handleAddBudget, h]
      · simp [Handlers.handleAddBudget, h]
      · rcases hA : newAmount with _ | a
        · simp [Handlers.handleAddBudget]
        · simp [Handlers.handleAddBudget, h a hA]
    simp [Handlers.runHandleAddBudget, hnone]
  · intro st selectedGoal contributionAmount updateRes refreshRes h
    have hnone : Handlers.handleContribute selectedGoal contributionAmount
        st.availableBalance = none := by
      rcases h with h | h
      · simp [Handlers.handleContribute, h]
      · rcases hA : contributionAmount with _ | a
        · simp [Handlers.handleContribute]
        · rcases h a hA with ha | ha
          · simp [Handlers.handleContribute, ha]
          · simp [Handlers.handleContribute, ha]
    simp [Handlers.runHandleContribute, hnone]

/-- Concrete budget for the C7 witness. -/
def witnessBudget : Api.Budget :=
  { id := "b1", category := "Food", amount := 300, spent := 0, month := 1,
    year := 2024, recurring := true, period := "2024-01" }

/-- Concrete savings goal for the C7 witness. -/
def witnessGoal : Api.SavingsGoal :=
  { id := "g1", name := "Fund", targetAmount := 1000, currentAmount := 0,
    deadline := none }

/-- Concrete store state for the C7 witness: one Food budget, available
    balance 100. -/
def witnessApiState : Api.State :=
  { transactions := [], budgets := [witnessBudget], savingsGoals := [witnessGoal],
    loading := false, error := none, totalIncome := 100, totalExpenses := 0,
    totalSavings := 0, availableBalance := 100 }

/-- Witness for C7: a duplicate budget category and an over-balance
    contribution are both rejected with the store untouched. -/
theorem validation_rejected_before_network_witness :
    Handlers.runHandleAddBudget witnessApiState "Food" (some 50) true 1 2024
        (Except.ok witnessBudget) = witnessApiState ∧
    Handlers.runHandleContribute witnessApiState witnessGoal (some 1000)
        (Except.ok witnessGoal) (Except.error "x") = witnessApiState := by
  constructor
  · exact (validation_rejected_before_network).1 witnessApiState "Food"
      (some 50) true 1 2024 (Except.ok witnessBudget)
      (Or.inl (by simp [witnessApiState, witnessBudget]))
  · exact (validation_rejected_before_network).2 witnessApiState witnessGoal
      (some 1000) (Except.ok witnessGoal) (Except.error "x")
      (Or.inr (fun a ha => by
        have h1000 : a = 1000 := by
          injection ha with hv
          exact hv.symm
        subst h1000
        right
        norm_num [witnessApiState]))

/-- Empty store state for the C1 counterexample. -/
def cexState : Api.State :=
  { transactions := [], budgets := [], savingsGoals := [], loading := false,
    error := none, totalIncome := 0, totalExpenses := 0, totalSavings := 0,
    availableBalance := 0 }

/-- Server-confirmed transaction for the C1 counterexample. -/
def cexTransaction : Api.Transaction :=
  { id := "t1", amount := 5, description := "Coffee", comments := "",
    tags := [], category := "Food", type := LocalStore.TransactionType.expense,
    date := 0 }

/-- Counterexample to C1: starting from the empty snapshot, `addTransaction`
    whose create call succeeds but whose aggregate re-fetch fails records an
    error yet leaves the transactions list changed (the new transaction was
    already prepended), so the prior snapshot is not left unchanged. -/
theorem addTransaction_refresh_failure_mutates :
    (Api.addTransaction cexState (Except.ok cexTransaction)
        (Except.error "network error")).transactions ≠ cexState.transactions ∧
    (Api.addTransaction cexState (Except.ok cexTransaction)
        (Except.error "network error")).error =
      some "Failed to add transaction" := by
  constructor
  · simp [Api.addTransaction, Api.handleApiError, cexState]
  · rfl

/-- C1 (amended): for every operation of the API-backed store, a failure of
    the initial CRUD call records a human-readable error and leaves the whole
    snapshot (transactions, budgets, goals, summary totals) unchanged; for
    the four operations that re-fetch aggregates, a re-fetch failure after a
    successful CRUD call records the error while the primary collection
    already reflects the confirmed CRUD result and every other snapshot part
    is unchanged. -/
theorem api_store_failure_behavior (st : Api.State) :
    (∀ (e : String) (r : Except String (List Api.Budget × Api.Summary)),
      Api.snapshotOf (Api.addTransaction st (Except.error e) r) =
        Api.snapshotOf st ∧
      (Api.addTransaction st (Except.error e) r).error =
        some "Failed to add transaction") ∧
    (∀ (id e : String) (r : Except String (List Api.Budget × Api.Summary)),
      Api.snapshotOf (Api.deleteTransaction st id (Except.error e) r) =
        Api.snapshotOf st ∧
      (Api.deleteTransaction st id (Except.error e) r).error =
        some "Failed to delete transaction") ∧
    (∀ e : String,
      Api.snapshotOf (Api.addBudget st (Except.error e)) = Api.snapshotOf st ∧
      (Api.addBudget st (Except.error e)).error = some "Failed to add budget") ∧
    (∀ id e : String,
      Api.snapshotOf (Api.updateBudget st id (Except.error e)) =
        Api.snapshotOf st ∧
      (Api.updateBudget st id (Except.error e)).error =
        some "Failed to update budget") ∧
    (∀ id e : String,
      Api.snapshotOf (Api.deleteBudget st id (Except.error e)) =
        Api.snapshotOf st ∧
      (Api.deleteBudget st id (Except.error e)).error =
        some "Failed to delete budget") ∧
    (∀ e : String,
      Api.snapshotOf (Api.addSavingsGoal st (Except.error e)) =
        Api.snapshotOf st ∧
      (Api.addSavingsGoal st (Except.error e)).error =
        some "Failed to add savings goal") ∧
    (∀ (id e : String) (flag : Bool)
       (r : Except String (List Api.Transaction × Api.Summary)),
      Api.snapshotOf (Api.updateSavingsGoal st id flag (Except.error e) r) =
        Api.snapshotOf st ∧
      (Api.updateSavingsGoal st id flag (Except.error e) r).error =
        some "Failed to update savings goal") ∧
    (∀ (id e : String) (r : Except String (List Api.Transaction × Api.Summary)),
      Api.snapshotOf (Api.deleteSavingsGoal st id (Except.error e) r) =
        Api.snapshotOf st ∧
      (Api.deleteSavingsGoal st id (Except.error e) r).error =
        some "Failed to delete savings goal") ∧
    (∀ (t : Api.Transaction) (e : String),
      (Api.addTransaction st (Except.ok t) (Except.error e)).transactions =
        t :: st.transactions ∧
      (Api.addTransaction st (Except.ok t) (Except.error e)).budgets =
        st.budgets ∧
      (Api.addTransaction st (Except.ok t) (Except.error e)).savingsGoals =
        st.savingsGoals ∧
      (Api.addTransaction st (Except.ok t) (Except.error e)).totalIncome =
        st.totalIncome ∧
      (Api.addTransaction st (Except.ok t) (Except.error e)).totalExpenses =
        st.totalExpenses ∧
      (Api.addTransaction st (Except.ok t) (Except.error e)).totalSavings =
        st.totalSavings ∧
      (Api.addTransaction st (Except.ok t) (Except.error e)).availableBalance =
        st.availableBalance ∧
      (Api.addTransaction st (Except.ok t) (Except.error e)).error =
        some "Failed to add transaction") ∧
    (∀ id e : String,
      (Api.deleteTransaction st id (Except.ok ()) (Except.error e)).transactions =
        st.transactions.filter (fun t => ¬ t.id = id) ∧
      (Api.deleteTransaction st id (Except.ok ()) (Except.error e)).budgets =
        st.budgets ∧
      (Api.deleteTransaction st id (Except.ok ()) (Except.error e)).savingsGoals =
        st.savingsGoals ∧
      (Api.deleteTransaction st id (Except.ok ()) (Except.error e)).totalIncome =
        st.totalIncome ∧
      (Api.deleteTransaction st id (Except.ok ()) (Except.error e)).totalExpenses =
        st.totalExpenses ∧
      (Api.deleteTransaction st id (Except.ok ()) (Except.error e)).totalSavings =
        st.totalSavings ∧
      (Api.deleteTransaction st id (Except.ok ()) (Except.error e)).availableBalance =
        st.availableBalance ∧
      (Api.deleteTransaction st id (Except.ok ()) (Except.error e)).error =
        some "Failed to delete transaction") ∧
    (∀ (id e : String) (g : Api.SavingsGoal),
      (Api.updateSavingsGoal st id true (Except.ok g) (Except.error e)).savingsGoals =
        st.savingsGoals.map (fun goal => if goal.id = id then g else goal) ∧
      (Api.updateSavingsGoal st id true (Except.ok g) (Except.error e)).transactions =
        st.transactions ∧
      (Api.updateSavingsGoal st id true (Except.ok g) (Except.error e)).budgets =
        st.budgets ∧
      (Api.updateSavingsGoal st id true (Except.ok g) (Except.error e)).totalIncome =
        st.totalIncome ∧
      (Api.updateSavingsGoal st id true (Except.ok g) (Except.error e)).totalExpenses =
        st.totalExpenses ∧
      (Api.updateSavingsGoal st id true (Except.ok g) (Except.error e)).totalSavings =
        st.totalSavings ∧
      (Api.updateSavingsGoal st id true (Except.ok g) (Except.error e)).availableBalance =
        st.availableBalance ∧
      (Api.updateSavingsGoal st id true (Except.ok g) (Except.error e)).error =
        some "Failed to update savings goal") ∧
    (∀ id e : String,
      (Api.deleteSavingsGoal st id (Except.ok ()) (Except.error e)).savingsGoals =
        st.savingsGoals.filter (fun g => ¬ g.id = id) ∧
      (Api.deleteSavingsGoal st id (Except.ok ()) (Except.error e)).transactions =
        st.transactions ∧
      (Api.deleteSavingsGoal st id (Except.ok ()) (Except.error e)).budgets =
        st.budgets ∧
      (Api.deleteSavingsGoal st id (Except.ok ()) (Except.error e)).totalIncome =
        st.totalIncome ∧
      (Api.deleteSavingsGoal st id (Except.ok ()) (Except.error e)).totalExpenses =
        st.totalExpenses ∧
      (Api.deleteSavingsGoal st id (Except.ok ()) (Except.error e)).totalSavings =
        st.totalSavings ∧
      (Api.deleteSavingsGoal st id (Except.ok ()) (Except.error e)).availableBalance =
        st.availableBalance ∧
      (Api.deleteSavingsGoal st id (Except.ok ()) (Except.error e)).error =
        some "Failed to delete savings goal") := by
  refine ⟨?_, ?_, ?_, ?_, ?_, ?_, ?_, ?_, ?_, ?_, ?_, ?_⟩ <;> intros <;>
    first
      | exact ⟨rfl, rfl⟩
      | exact ⟨rfl, rfl, rfl, rfl, rfl, rfl, rfl, rfl⟩

namespace Helper

theorem sum_filter_not_of_unique {α : Type} (p : α → Prop) [DecidablePred p]
    (f : α → ℚ) :
    ∀ (l : List α) (g : α), l.find? (fun a => p a) = some g →
      l.countP (fun a => p a) ≤ 1 →
      ((l.filter (fun a => ¬ p a)).map f).sum = (l.map f).sum - f g := by
  intro l
  induction l with
  | nil => intro g hfind _; simp at hfind
  | cons h t ih =>
    intro g hfind hcount
    by_cases hp : p h
    · have hg : g = h := by
        rw [List.find?_cons_of_pos _ (by simpa using hp)] at hfind
        exact (Option.some_inj.mp hfind).symm
      subst hg
      have hzero : t.countP (fun a => decide (p a)) = 0 := by
        rw [List.countP_cons_of_pos _ _ (by simpa using hp)] at hcount
        omega
      have hall : ∀ x ∈ t, ¬ p x := by
        intro x hx hc
        have := List.countP_eq_zero.mp hzero x hx
        simp [hc] at this
      have hfe : t.filter (fun a => ¬ p a) = t := by
        apply List.filter_eq_self.mpr
        intro x hx
        simpa using hall x hx
      rw [List.filter_cons_of_neg (by simpa using hp), hfe]
      simp only [List.map_cons, List.sum_cons]
      ring
    · have hfind2 : t.find? (fun a => p a) = some g := by
        rwa [List.find?_cons_of_neg _ (by simpa using hp)] at hfind
      have hcount2 : t.countP (fun a => decide (p a)) ≤ 1 := by
        rwa [List.countP_cons_of_neg _ _ (by simpa using hp)] at hcount
      rw [List.filter_cons_of_pos (by simpa using hp)]
      simp only [List.map_cons, List.sum_cons, ih g hfind2 hcount2]
      ring

end Helper

/-- Store with a single savings goal holding 200, for the C10 counterexample. -/
def cexGoalState : LocalStore.FinanceData :=
  { transactions := [], budgets := [],
    savingsGoals := [{ id := "g1", name := "Fund", targetAmount := 1000,
                       currentAmount := 200, deadline := none }] }

/-- Counterexample to C10: deleting the goal holding 200 moves the available
    balance from -200 to 200 — the removal from `totalSavings` and the
    offsetting income transaction each add 200, so the balance is not
    unchanged. -/
theorem deleteSavingsGoal_changes_balance :
    LocalStore.availableBalance cexGoalState = -200 ∧
    LocalStore.availableBalance
        (LocalStore.deleteSavingsGoal cexGoalState "g1" "99" 5) = 200 ∧
    ¬ ((200 : ℚ) = -200) := by
  refine ⟨?_, ?_, by norm_num⟩
  · simp [cexGoalState, LocalStore.availableBalance, LocalStore.totalIncome,
      LocalStore.totalExpenses, LocalStore.totalSavings]
  · simp +decide [cexGoalState, LocalStore.deleteSavingsGoal,
      LocalStore.transferTransaction, LocalStore.availableBalance,
      LocalStore.totalIncome, LocalStore.totalExpenses,
      LocalStore.totalSavings, List.filter_cons, List.find?]

/-- C10 (amended): deleting a savings goal (unique for its id) with strictly
    positive balance prepends exactly one income transaction of that balance
    in category "Savings Transfer", and the available balance increases by
    exactly twice the goal's balance (once from the income transaction, once
    from the goal leaving `totalSavings`); deleting one with zero balance
    adds no transaction and leaves the available balance unchanged. -/
theorem deleteSavingsGoal_balance_effect (d : LocalStore.FinanceData)
    (id newId : String) (nowDate : Int) (g : LocalStore.SavingsGoal)
    (hfind : d.savingsGoals.find? (fun x => x.id = id) = some g)
    (huniq : d.savingsGoals.countP (fun x => x.id = id) ≤ 1) :
    (0 < g.currentAmount →
      (LocalStore.deleteSavingsGoal d id newId nowDate).transactions =
        LocalStore.transferTransaction g newId nowDate :: d.transactions ∧
      (LocalStore.transferTransaction g newId nowDate).type =
        LocalStore.TransactionType.income ∧
      (LocalStore.transferTransaction g newId nowDate).amount =
        g.currentAmount ∧
      (LocalStore.transferTransaction g newId nowDate).category =
        "Savings Transfer" ∧
      LocalStore.availableBalance (LocalStore.deleteSavingsGoal d id newId nowDate) =
        LocalStore.availableBalance d + 2 * g.currentAmount) ∧
    (g.currentAmount = 0 →
      (LocalStore.deleteSavingsGoal d id newId nowDate).transactions =
        d.transactions ∧
      LocalStore.availableBalance (LocalStore.deleteSavingsGoal d id newId nowDate) =
        LocalStore.availableBalance d) := by
  have hsav : ((d.savingsGoals.filter (fun x => ¬ x.id = id)).map
      (fun x => x.currentAmount)).sum =
      (d.savingsGoals.map (fun x => x.currentAmount)).sum - g.currentAmount :=
    Helper.sum_filter_not_of_unique (fun x => x.id = id)
      (fun x => x.currentAmount) d.savingsGoals g hfind huniq
  constructor
  · intro hpos
    have hd2 : LocalStore.deleteSavingsGoal d id newId nowDate =
        { d with
          savingsGoals := d.savingsGoals.filter (fun x => ¬ x.id = id),
          transactions := LocalStore.transferTransaction g newId nowDate ::
            d.transactions } := by
      simp only [LocalStore.deleteSavingsGoal, hfind]
      rw [if_pos hpos]
    refine ⟨by rw [hd2], rfl, rfl, rfl, ?_⟩
    rw [hd2]
    simp only [LocalStore.availableBalance, LocalStore.totalIncome,
      LocalStore.totalExpenses, LocalStore.totalSavings]
    rw [hsav]
    simp +decide [List.filter_cons, LocalStore.transferTransaction]
    ring
  · intro hzero
    have hd2 : LocalStore.deleteSavingsGoal d id newId nowDate =
        { d with
          savingsGoals := d.savingsGoals.filter (fun x => ¬ x.id = id) } := by
      simp only [LocalStore.deleteSavingsGoal, hfind]
      rw [if_neg (by rw [hzero]; exact lt_irrefl 0)]
    refine ⟨by rw [hd2], ?_⟩
    rw [hd2]
    simp only [LocalStore.availableBalance, LocalStore.totalIncome,
      LocalStore.totalExpenses, LocalStore.totalSavings]
    rw [hsav, hzero]
    ring

/-- Witness for C10: on the concrete one-goal store the deletion raises the
    balance by exactly 2 * 200. -/
theorem deleteSavingsGoal_balance_effect_witness :
    LocalStore.availableBalance
        (LocalStore.deleteSavingsGoal cexGoalState "g1" "99" 5) =
      LocalStore.availableBalance cexGoalState + 2 * 200 :=
  ((deleteSavingsGoal_balance_effect cexGoalState "g1" "99" 5
      { id := "g1", name := "Fund", targetAmount := 1000,
        currentAmount := 200, deadline := none }
      (by simp +decide [cexGoalState, List.find?])
      (by simp +decide [cexGoalState])).1 (by norm_num)).2.2.2.2

/-- Invariant of C9: every budget's `spent` field is non-negative. -/
def spentNonneg (d : LocalStore.FinanceData) : Prop :=
  ∀ b ∈ d.budgets, 0 ≤ b.spent

/-- Store with one budget whose `spent` is 0, for the C9 counterexample. -/
def cexBudgetState : LocalStore.FinanceData :=
  { transactions := [],
    budgets := [{ id := "1", category := "Food", amount := 100, spent := 0 }],
    savingsGoals := [] }

/-- The budget produced by the C9 counterexample patch. -/
def cexBadBudget : LocalStore.Budget :=
  { id := "1", category := "Food", amount := 100, spent := -1 }

/-- Counterexample to C9: `updateBudget` merges an arbitrary patch, so a
    patch that sets `spent` to -1 breaks the non-negativity invariant even
    though every transaction amount is (vacuously) positive. -/
theorem updateBudget_breaks_spent_nonneg :
    spentNonneg cexBudgetState ∧
    ¬ spentNonneg (LocalStore.updateBudget cexBudgetState "1"
        { spent := some (-1) }) := by
  constructor
  · intro b hb
    simp [cexBudgetState] at hb
    rw [hb]
  · intro h
    have hmem : cexBadBudget ∈
        (LocalStore.updateBudget cexBudgetState "1"
          { spent := some (-1) }).budgets := by
      simp +decide [cexBudgetState, cexBadBudget, LocalStore.updateBudget,
        LocalStore.mergeBudget]
    have := h _ hmem
    norm_num [cexBadBudget] at this

/-- One call of a localStorage-store operation, restricted as the amended C9
    requires: added transactions have positive amounts and `updateBudget`
    patches do not set `spent` negative. -/
inductive StoreStep : LocalStore.FinanceData → LocalStore.FinanceData → Prop
  | addTransaction (d : LocalStore.FinanceData) (tx : LocalStore.TransactionFields)
      (newId : String) (hpos : 0 < tx.amount) :
      StoreStep d (LocalStore.addTransaction d tx newId)
  | deleteTransaction (d : LocalStore.FinanceData) (id : String) :
      StoreStep d (LocalStore.deleteTransaction d id)
  | addBudget (d : LocalStore.FinanceData) (b : LocalStore.BudgetFields)
      (newId : String) : StoreStep d (LocalStore.addBudget d b newId)
  | updateBudget (d : LocalStore.FinanceData) (id : String)
      (p : LocalStore.BudgetPatch) (hspent : ∀ v, p.spent = some v → 0 ≤ v) :
      StoreStep d (LocalStore.updateBudget d id p)
  | deleteBudget (d : LocalStore.FinanceData) (id : String) :
      StoreStep d (LocalStore.deleteBudget d id)
  | addSavingsGoal (d : LocalStore.FinanceData)
      (g : LocalStore.SavingsGoalFields) (newId : String) :
      StoreStep d (LocalStore.addSavingsGoal d g newId)
  | updateSavingsGoal (d : LocalStore.FinanceData) (id : String)
      (p : LocalStore.SavingsGoalPatch) :
      StoreStep d (LocalStore.updateSavingsGoal d id p)
  | deleteSavingsGoal (d : LocalStore.FinanceData) (id newId : String)
      (nowDate : Int) :
      StoreStep d (LocalStore.deleteSavingsGoal d id newId nowDate)

/-- Reflexive-transitive closure of `StoreStep`: the reachable states. -/
inductive StoreReachable : LocalStore.FinanceData → LocalStore.FinanceData → Prop
  | refl (d : LocalStore.FinanceData) : StoreReachable d d
  | step {d d1 d2 : LocalStore.FinanceData} :
      StoreReachable d d1 → StoreStep d1 d2 → StoreReachable d d2

namespace Helper

theorem step_preserves_spentNonneg {d d2 : LocalStore.FinanceData}
    (h : StoreStep d d2) (hinv : spentNonneg d) : spentNonneg d2 := by
  cases h with
  | addTransaction tx newId hpos =>
    intro b hb
    rw [LocalStore.addTransaction] at hb
    by_cases ht : tx.type = LocalStore.TransactionType.expense
    · rw [if_pos ht] at hb
      simp only [List.mem_map] at hb
      obtain ⟨b0, hb0, rfl⟩ := hb
      by_cases hc : b0.category = tx.category
      · rw [if_pos hc]
        show 0 ≤ b0.spent + tx.amount
        have := hinv b0 hb0
        linarith
      · rw [if_neg hc]
        exact hinv b0 hb0
    · rw [if_neg ht] at hb
      exact hinv b hb
  | deleteTransaction id =>
    intro b hb
    rcases hfind : d.transactions.find? (fun t => t.id = id) with _ | transaction
    · simp only [LocalStore.deleteTransaction, hfind] at hb
      exact hinv b hb
    · simp only [LocalStore.deleteTransaction, hfind] at hb
      by_cases ht : transaction.type = LocalStore.TransactionType.expense
      · rw [if_pos ht] at hb
        simp only [List.mem_map] at hb
        obtain ⟨b0, hb0, rfl⟩ := hb
        by_cases hc : b0.category = transaction.category
        · rw [if_pos hc]
          show 0 ≤ max 0 (b0.spent - transaction.amount)
          exact le_max_left 0 _
        · rw [if_neg hc]
          exact hinv b0 hb0
      · rw [if_neg ht] at hb
        exact hinv b hb
  | addBudget bf newId =>
    intro b hb
    rw [LocalStore.addBudget] at hb
    rcases List.mem_append.mp hb with hb | hb
    · exact hinv b hb
    · simp at hb
      rw [hb]
  | updateBudget id p hspent =>
    intro b hb
    rw [LocalStore.updateBudget] at hb
    simp only [List.mem_map] at hb
    obtain ⟨b0, hb0, rfl⟩ := hb
    by_cases hid : b0.id = id
    · rw [if_pos hid]
      rw [LocalStore.mergeBudget]
      rcases hps : p.spent with _ | v
      · simpa [hps] using hinv b0 hb0
      · simpa [hps] using hspent v hps
    · rw [if_neg hid]
      exact hinv b0 hb0
  | deleteBudget id =>
    intro b hb
    rw [LocalStore.deleteBudget] at hb
    exact hinv b (List.mem_of_mem_filter hb)
  | addSavingsGoal g newId =>
    intro b hb
    exact hinv b hb
  | updateSavingsGoal id p =>
    intro b hb
    exact hinv b hb
  | deleteSavingsGoal id newId nowDate =>
    intro b hb
    rcases hfind : d.savingsGoals.find? (fun g => g.id = id) with _ | goal
    · simp only [LocalStore.deleteSavingsGoal, hfind] at hb
      exact hinv b hb
    · simp only [LocalStore.deleteSavingsGoal, hfind] at hb
      by_cases hpos : goal.currentAmount > 0
      · rw [if_pos hpos] at hb
        exact hinv b hb
      · rw [if_neg hpos] at hb
        exact hinv b hb

end Helper

/-- C9 (amended): with every added transaction amount positive and every
    `updateBudget` patch not setting `spent` negative, every state reachable
    by localStorage-store operations from a state whose budgets all have
    non-negative `spent` again has all budgets' `spent` non-negative
    (`addTransaction` only adds a positive amount, `deleteTransaction` clamps
    at 0, new budgets start at 0). -/
theorem budgets_spent_nonneg_invariant (d d2 : LocalStore.FinanceData)
    (hinv : spentNonneg d) (hreach : StoreReachable d d2) : spentNonneg d2 := by
  induction hreach with
  | refl => exact hinv
  | step _ hs ih => exact Helper.step_preserves_spentNonneg hs ih

/-- Witness for C9: from the concrete store, adding an expense of 30 keeps
    all budgets' `spent` non-negative. -/
theorem budgets_spent_nonneg_invariant_witness :
    spentNonneg (LocalStore.addTransaction cexBudgetState
      { amount := 30, description := "Lunch", category := "Food",
        type := LocalStore.TransactionType.expense, date := 0 } "9") :=
  budgets_spent_nonneg_invariant cexBudgetState _
    (fun b hb => by simp [cexBudgetState] at hb; rw [hb])
    (StoreReachable.step (StoreReachable.refl _)
      (StoreStep.addTransaction _ _ "9" (by norm_num)))

namespace Helper

theorem perm_insertDescBy {α : Type} (key : α → ℚ) (x : α) (l : List α) :
    List.Perm (insertDescBy key x l) (x :: l) := by
  induction l with
  | nil => exact List.Perm.refl _
  | cons h t ih =>
    rw [insertDescBy]
    split
    · exact List.Perm.refl _
    · exact (ih.cons h).trans (List.Perm.swap x h t)

theorem perm_sortDescBy {α : Type} (key : α → ℚ) (l : List α) :
    List.Perm (sortDescBy key l) l := by
  induction l with
  | nil => exact List.Perm.refl _
  | cons h t ih =>
    rw [sortDescBy]
    exact (perm_insertDescBy key h (sortDescBy key t)).trans (ih.cons h)

theorem pairwise_insertDescBy {α : Type} (key : α → ℚ) (x : α)
    {l : List α} (h : l.Pairwise (fun a b => key b ≤ key a)) :
    (insertDescBy key x l).Pairwise (fun a b => key b ≤ key a) := by
  induction l with
  | nil => simp [insertDescBy]
  | cons hd t ih =>
    have hc := List.pairwise_cons.mp h
    by_cases hle : key hd ≤ key x
    · rw [insertDescBy, if_pos hle, List.pairwise_cons]
      refine ⟨?_, h⟩
      intro b hb
      rcases List.mem_cons.mp hb with hb | hb
      · rw [hb]
        exact hle
      · exact le_trans (hc.1 b hb) hle
    · rw [insertDescBy, if_neg hle, List.pairwise_cons]
      refine ⟨?_, ih hc.2⟩
      intro b hb
      rcases List.mem_cons.mp (((perm_insertDescBy key x t).mem_iff).mp hb)
          with hb | hb
      · rw [hb]
        exact le_of_lt (lt_of_not_le hle)
      · exact hc.1 b hb

end Helper

namespace Helper

theorem pairwise_sortDescBy {α : Type} (key : α → ℚ) (l : List α) :
    (sortDescBy key l).Pairwise (fun a b => key b ≤ key a) := by
  induction l with
  | nil => simp [sortDescBy]
  | cons h t ih =>
    rw [sortDescBy]
    exact pairwise_insertDescBy key h ih

theorem filter_key_insertDescBy {α : Type} (key : α → ℚ) (v : ℚ) (x : α)
    (l : List α) :
    (insertDescBy key x l).filter (fun a => key a = v) =
      if key x = v then x :: l.filter (fun a => key a = v)
      else l.filter (fun a => key a = v) := by
  induction l with
  | nil =>
    rw [insertDescBy]
    by_cases hx : key x = v <;> simp [List.filter_cons, hx]
  | cons hd t ih =>
    by_cases hle : key hd ≤ key x
    · rw [insertDescBy, if_pos hle]
      by_cases hx : key x = v <;> simp [List.filter_cons, hx]
    · rw [insertDescBy, if_neg hle]
      by_cases hhd : key hd = v
      · by_cases hx : key x = v
        · exfalso
          apply hle
          rw [hhd, hx]
        · simp [List.filter_cons, hhd, hx, ih]
      · by_cases hx : key x = v <;> simp [List.filter_cons, hhd, hx, ih]

theorem filter_key_sortDescBy {α : Type} (key : α → ℚ) (v : ℚ) (l : List α) :
    (sortDescBy key l).filter (fun a => key a = v) =
      l.filter (fun a => key a = v) := by
  induction l with
  | nil => rfl
  | cons h t ih =>
    rw [sortDescBy, filter_key_insertDescBy, ih]
    by_cases hh : key h = v <;> simp [List.filter_cons, hh]

theorem sum_upsertCategory (acc : List Analytics.CategoryTotal)
    (t : Api.Transaction) :
    ((Analytics.upsertCategory acc t).map (fun c => c.amount)).sum =
      (acc.map (fun c => c.amount)).sum + t.amount := by
  induction acc with
  | nil => simp [Analytics.upsertCategory]
  | cons c rest ih =>
    rw [Analytics.upsertCategory]
    split
    · simp only [List.map_cons, List.sum_cons]
      ring
    · simp only [List.map_cons, List.sum_cons, ih]
      ring

theorem sum_spendingReduce_aux (l : List Api.Transaction)
    (acc : List Analytics.CategoryTotal) :
    ((l.foldl Analytics.upsertCategory acc).map (fun c => c.amount)).sum =
      (acc.map (fun c => c.amount)).sum + (l.map (fun t => t.amount)).sum := by
  induction l generalizing acc with
  | nil => simp
  | cons h t ih =>
    rw [List.foldl_cons, ih, sum_upsertCategory]
    simp only [List.map_cons, List.sum_cons]
    ring

theorem sum_spendingReduce (l : List Api.Transaction) :
    ((Analytics.spendingReduce l).map (fun c => c.amount)).sum =
      (l.map (fun t => t.amount)).sum := by
  rw [Analytics.spendingReduce, sum_spendingReduce_aux]
  simp

end Helper

/-- C4: for every non-empty transaction list, the category-spending pipeline
    (filter to in-range expenses, group by category, sum per group, sort
    descending) satisfies: the group totals sum to exactly the sum of the
    matching transactions' amounts, the output is sorted descending by total,
    and ties keep the groups' encounter order (the output restricted to any
    total value equals the unsorted group list so restricted). -/
theorem spendingByCategory_spec (transactions : List Api.Transaction)
    (lo hi : Int) (hne : transactions ≠ []) :
    ((Analytics.currentMonthSpendingByCategory transactions lo hi).map
        (fun c => c.amount)).sum =
      ((Analytics.monthExpenses transactions lo hi).map
        (fun t => t.amount)).sum ∧
    (Analytics.currentMonthSpendingByCategory transactions lo hi).Pairwise
      (fun a b => b.amount ≤ a.amount) ∧
    (∀ v : ℚ,
      (Analytics.currentMonthSpendingByCategory transactions lo hi).filter
          (fun c => c.amount = v) =
        (Analytics.spendingReduce
            (Analytics.monthExpenses transactions lo hi)).filter
          (fun c => c.amount = v)) := by
  refine ⟨?_, ?_, ?_⟩
  · rw [Analytics.currentMonthSpendingByCategory]
    rw [((Helper.perm_sortDescBy (fun c : Analytics.CategoryTotal => c.amount)
        (Analytics.spendingReduce
          (Analytics.monthExpenses transactions lo hi))).map
      (fun c : Analytics.CategoryTotal => c.amount)).sum_eq]
    exact Helper.sum_spendingReduce _
  · exact Helper.pairwise_sortDescBy
      (fun c : Analytics.CategoryTotal => c.amount) _
  · intro v
    exact Helper.filter_key_sortDescBy
      (fun c : Analytics.CategoryTotal => c.amount) v _

/-- Witness for C4: the singleton expense list is non-empty and its single
    group total equals the transaction's amount. -/
theorem spendingByCategory_spec_witness :
    ([cexTransaction] ≠ ([] : List Api.Transaction)) ∧
    ((Analytics.currentMonthSpendingByCategory [cexTransaction] 0 10).map
        (fun c => c.amount)).sum =
      ((Analytics.monthExpenses [cexTransaction] 0 10).map
        (fun t => t.amount)).sum :=
  ⟨by simp, (spendingByCategory_spec [cexTransaction] 0 10 (by simp)).1⟩

/-- First Netflix expense (amount 10) for the C2 counterexample. -/
def cexRecurTx1 : LocalStore.Transaction :=
  { id := "1", amount := 10, description := "Netflix",
    category := "Entertainment", type := LocalStore.TransactionType.expense,
    date := 5 }

/-- Second Netflix expense (amount 10) for the C2 counterexample. -/
def cexRecurTx2 : LocalStore.Transaction :=
  { id := "2", amount := 10, description := "Netflix",
    category := "Entertainment", type := LocalStore.TransactionType.expense,
    date := 3 }

/-- Counterexample to C2: two identical Netflix expenses of 10 form a flagged
    group with mean 10, and the code projects its annual cost as 120
    (mean x 12), not mean x (12 / min(occurrences, 3)) = 60 as claimed. -/
theorem recurring_projection_counterexample :
    Patterns.potentialRecurring [cexRecurTx1, cexRecurTx2] =
      [Patterns.mkRecurringEntry "Netflix" [cexRecurTx1, cexRecurTx2]] ∧
    (Patterns.mkRecurringEntry "Netflix" [cexRecurTx1, cexRecurTx2]).annualImpact =
      120 ∧
    (Patterns.mkRecurringEntry "Netflix" [cexRecurTx1, cexRecurTx2]).avgAmount *
      (12 / (min (2 : ℚ) 3)) = 60 ∧
    ¬ ((120 : ℚ) = 60) := by
  have h1 : Patterns.merchantTransactions [cexRecurTx1, cexRecurTx2] =
      [("Netflix", [cexRecurTx1, cexRecurTx2])] := by
    simp +decide [Patterns.merchantTransactions, Patterns.upsertGroup,
      List.filter_cons, cexRecurTx1, cexRecurTx2]
  have hcons : (Patterns.mkRecurringEntry "Netflix"
      [cexRecurTx1, cexRecurTx2]).consistent = true := by
    simp [Patterns.mkRecurringEntry, cexRecurTx1, cexRecurTx2]
  refine ⟨?_, ?_, ?_, by norm_num⟩
  · rw [Patterns.potentialRecurring, h1]
    simp [List.filter_cons, hcons, sortDescBy, insertDescBy]
  · simp [Patterns.mkRecurringEntry, cexRecurTx1, cexRecurTx2]
    norm_num
  · simp [Patterns.mkRecurringEntry, cexRecurTx1, cexRecurTx2]
    norm_num

namespace Helper

/-- Association lookup in the grouping accumulator: the first group keyed by
    the given merchant string, if any. -/
def lookupGroup (acc : List (String × List LocalStore.Transaction))
    (m : String) : Option (List LocalStore.Transaction) :=
  match acc with
  | [] => none
  | (mk, g) :: rest => if mk = m then some g else lookupGroup rest m

theorem lookup_upsertGroup (acc : List (String × List LocalStore.Transaction))
    (t : LocalStore.Transaction) (m : String) :
    lookupGroup (Patterns.upsertGroup acc t) m =
      if t.description = m then
        some ((lookupGroup acc m).getD [] ++ [t])
      else lookupGroup acc m := by
  induction acc with
  | nil =>
    rw [Patterns.upsertGroup]
    by_cases h3 : t.description = m <;> simp [lookupGroup, h3]
  | cons hd rest ih =>
    obtain ⟨mk, g⟩ := hd
    rw [Patterns.upsertGroup]
    by_cases h1 : mk = t.description
    · rw [if_pos h1]
      by_cases h2 : mk = m
      · have h3 : t.description = m := h1.symm.trans h2
        simp [lookupGroup, h2, h3]
      · have h3 : ¬ t.description = m := fun hc => h2 (h1.trans hc)
        simp [lookupGroup, h2, h3]
    · rw [if_neg h1]
      by_cases h2 : mk = m
      · have h3 : ¬ t.description = m := fun hc => h1 (h2.trans hc.symm)
        simp [lookupGroup, h2, h3]
      · simp [lookupGroup, h2, ih]

theorem lookup_foldl_some (ts : List LocalStore.Transaction) :
    ∀ (acc : List (String × List LocalStore.Transaction)) (m : String)
      (g : List LocalStore.Transaction), lookupGroup acc m = some g →
      lookupGroup (ts.foldl Patterns.upsertGroup acc) m =
        some (g ++ ts.filter (fun t => t.description = m)) := by
  induction ts with
  | nil => intro acc m g h; simpa using h
  | cons t ts ih =>
    intro acc m g h
    rw [List.foldl_cons]
    have hstep := lookup_upsertGroup acc t m
    by_cases h3 : t.description = m
    · rw [if_pos h3, h] at hstep
      rw [ih _ m (g ++ [t]) hstep]
      simp [List.filter_cons, h3]
    · rw [if_neg h3, h] at hstep
      rw [ih _ m g hstep]
      simp [List.filter_cons, h3]

theorem lookup_foldl_none (ts : List LocalStore.Transaction) :
    ∀ (acc : List (String × List LocalStore.Transaction)) (m : String),
      lookupGroup acc m = none →
      lookupGroup (ts.foldl Patterns.upsertGroup acc) m =
        if ts.filter (fun t => t.description = m) = [] then none
        else some (ts.filter (fun t => t.description = m)) := by
  induction ts with
  | nil => intro acc m h; simpa using h
  | cons t ts ih =>
    intro acc m h
    rw [List.foldl_cons]
    have hstep := lookup_upsertGroup acc t m
    by_cases h3 : t.description = m
    · rw [if_pos h3, h] at hstep
      rw [lookup_foldl_some ts _ m [t] hstep]
      simp [List.filter_cons, h3]
    · rw [if_neg h3, h] at hstep
      rw [ih _ m hstep]
      simp [List.filter_cons, h3]

theorem lookup_merchantTransactions (txs : List LocalStore.Transaction)
    (m : String) :
    lookupGroup (Patterns.merchantTransactions txs) m =
      if (txs.filter (fun t =>
            t.type = LocalStore.TransactionType.expense)).filter
          (fun t => t.description = m) = [] then none
      else some ((txs.filter (fun t =>
            t.type = LocalStore.TransactionType.expense)).filter
          (fun t => t.description = m)) := by
  rw [Patterns.merchantTransactions]
  exact lookup_foldl_none _ [] m rfl

end Helper

namespace Helper

theorem mem_keys_upsertGroup
    (acc : List (String × List LocalStore.Transaction))
    (t : LocalStore.Transaction) (x : String) :
    x ∈ (Patterns.upsertGroup acc t).map Prod.fst ↔
      x ∈ acc.map Prod.fst ∨ x = t.description := by
  induction acc with
  | nil => simp [Patterns.upsertGroup, eq_comm]
  | cons hd rest ih =>
    obtain ⟨mk, g⟩ := hd
    rw [Patterns.upsertGroup]
    by_cases h1 : mk = t.description
    · rw [if_pos h1]
      simp only [List.map_cons, List.mem_cons]
      constructor
      · intro h
        exact Or.inl h
      · rintro (h | h)
        · exact h
        · rw [h, ← h1]
          exact Or.inl rfl
    · rw [if_neg h1]
      simp only [List.map_cons, List.mem_cons, ih]
      tauto

theorem nodup_keys_upsertGroup
    (acc : List (String × List LocalStore.Transaction))
    (t : LocalStore.Transaction)
    (h : (acc.map Prod.fst).Nodup) :
    ((Patterns.upsertGroup acc t).map Prod.fst).Nodup := by
  induction acc with
  | nil => simp [Patterns.upsertGroup]
  | cons hd rest ih =>
    obtain ⟨mk, g⟩ := hd
    rw [List.map_cons, List.nodup_cons] at h
    rw [Patterns.upsertGroup]
    by_cases h1 : mk = t.description
    · rw [if_pos h1]
      rw [List.map_cons, List.nodup_cons]
      exact h
    · rw [if_neg h1]
      rw [List.map_cons, List.nodup_cons]
      constructor
      · intro hc
        rcases (mem_keys_upsertGroup rest t mk).mp hc with hc | hc
        · exact h.1 hc
        · exact h1 hc
      · exact ih h.2

theorem nodup_keys_foldl (ts : List LocalStore.Transaction) :
    ∀ acc : List (String × List LocalStore.Transaction),
      (acc.map Prod.fst).Nodup →
      ((ts.foldl Patterns.upsertGroup acc).map Prod.fst).Nodup := by
  induction ts with
  | nil => intro acc h; simpa using h
  | cons t ts ih =>
    intro acc h
    rw [List.foldl_cons]
    exact ih _ (nodup_keys_upsertGroup acc t h)

theorem nodup_keys_merchantTransactions (txs : List LocalStore.Transaction) :
    ((Patterns.merchantTransactions txs).map Prod.fst).Nodup := by
  rw [Patterns.merchantTransactions]
  exact nodup_keys_foldl _ [] (by simp)

theorem mem_iff_lookup
    (acc : List (String × List LocalStore.Transaction))
    (hnd : (acc.map Prod.fst).Nodup) (m : String)
    (g : List LocalStore.Transaction) :
    (m, g) ∈ acc ↔ lookupGroup acc m = some g := by
  induction acc with
  | nil => simp [lookupGroup]
  | cons hd rest ih =>
    obtain ⟨mk, gk⟩ := hd
    rw [List.map_cons, List.nodup_cons] at hnd
    rw [lookupGroup]
    constructor
    · intro h
      rcases List.mem_cons.mp h with h | h
      · rw [Prod.mk.injEq] at h
        rw [if_pos h.1.symm]
        rw [h.2]
      · have hm : ¬ mk = m := by
          intro hc
          apply hnd.1
          rw [hc]
          exact List.mem_map.mpr ⟨(m, g), h, rfl⟩
        rw [if_neg hm]
        exact (ih hnd.2).mp h
    · intro h
      by_cases hm : mk = m
      · rw [if_pos hm] at h
        rw [Option.some_inj] at h
        rw [← hm, ← h]
        exact List.mem_cons_self _ _
      · rw [if_neg hm] at h
        exact List.mem_cons_of_mem _ ((ih hnd.2).mpr h)

/-- Membership characterization of the recurring-expense output. -/
theorem mem_potentialRecurring_iff (txs : List LocalStore.Transaction)
    (e : Patterns.RecurringEntry) :
    e ∈ Patterns.potentialRecurring txs ↔
      ∃ mg ∈ Patterns.merchantTransactions txs,
        2 ≤ mg.2.length ∧ e = Patterns.mkRecurringEntry mg.1 mg.2 ∧
        e.consistent = true := by
  rw [Patterns.potentialRecurring]
  rw [(perm_sortDescBy (fun x : Patterns.RecurringEntry => x.avgAmount)
    _).mem_iff]
  rw [List.mem_filter, List.mem_map]
  constructor
  · rintro ⟨⟨mg, hmg, rfl⟩, hcons⟩
    rw [List.mem_filter] at hmg
    exact ⟨mg, hmg.1, by simpa using hmg.2, rfl, hcons⟩
  · rintro ⟨mg, hmg, hlen, rfl, hcons⟩
    refine ⟨⟨mg, List.mem_filter.mpr ⟨hmg, by simpa using hlen⟩, rfl⟩, hcons⟩

end Helper

namespace Patterns

/-- The expense transactions with the given exact description, in encounter
    order (the group the spec's words describe). -/
def groupOf (txs : List LocalStore.Transaction) (m : String) :
    List LocalStore.Transaction :=
  (txs.filter (fun t => t.type = LocalStore.TransactionType.expense)).filter
    (fun t => t.description = m)

/-- The mean amount of that group. -/
def meanOf (txs : List LocalStore.Transaction) (m : String) : ℚ :=
  ((groupOf txs m).map (fun t => t.amount)).sum / ((groupOf txs m).length : ℚ)

end Patterns

namespace Helper

theorem avg_mkRecurringEntry (m : String) (g : List LocalStore.Transaction) :
    (Patterns.mkRecurringEntry m g).avgAmount =
      ((g.map (fun t => t.amount)).sum) / (g.length : ℚ) := by
  simp [Patterns.mkRecurringEntry]

theorem avg_pos (m : String) (g : List LocalStore.Transaction)
    (hpos : ∀ t ∈ g, 0 < t.amount) (hne : g ≠ []) :
    0 < (Patterns.mkRecurringEntry m g).avgAmount := by
  rw [avg_mkRecurringEntry]
  apply div_pos
  · apply List.sum_pos
    · intro a ha
      obtain ⟨t, ht, rfl⟩ := List.mem_map.mp ha
      exact hpos t ht
    · simpa using hne
  · have : 0 < g.length := List.length_pos.mpr hne
    exact_mod_cast this

theorem consistent_iff (m : String) (g : List LocalStore.Transaction)
    (hpos : ∀ t ∈ g, 0 < t.amount) (hne : g ≠ []) :
    (Patterns.mkRecurringEntry m g).consistent = true ↔
      ∀ t ∈ g, |t.amount - (Patterns.mkRecurringEntry m g).avgAmount| <
        (Patterns.mkRecurringEntry m g).avgAmount / 10 := by
  have hmean := avg_pos m g hpos hne
  have hshape : (Patterns.mkRecurringEntry m g).consistent =
      (g.map (fun t => t.amount)).all (fun amt =>
        |amt - (Patterns.mkRecurringEntry m g).avgAmount| /
          (Patterns.mkRecurringEntry m g).avgAmount < 1 / 10) := rfl
  rw [hshape, List.all_eq_true]
  constructor
  · intro h t ht
    have := h (t.amount) (List.mem_map.mpr ⟨t, ht, rfl⟩)
    rw [decide_eq_true_eq, div_lt_iff hmean] at this
    calc |t.amount - (Patterns.mkRecurringEntry m g).avgAmount|
        < 1 / 10 * (Patterns.mkRecurringEntry m g).avgAmount := this
      _ = (Patterns.mkRecurringEntry m g).avgAmount / 10 := by ring
  · intro h a ha
    obtain ⟨t, ht, rfl⟩ := List.mem_map.mp ha
    rw [decide_eq_true_eq, div_lt_iff hmean]
    calc |t.amount - (Patterns.mkRecurringEntry m g).avgAmount|
        < (Patterns.mkRecurringEntry m g).avgAmount / 10 := h t ht
      _ = 1 / 10 * (Patterns.mkRecurringEntry m g).avgAmount := by ring

theorem group_eq_of_mem (txs : List LocalStore.Transaction) (a : String)
    (b : List LocalStore.Transaction)
    (hm : (a, b) ∈ Patterns.merchantTransactions txs) :
    b = Patterns.groupOf txs a ∧ Patterns.groupOf txs a ≠ [] := by
  have hl := (mem_iff_lookup _ (nodup_keys_merchantTransactions txs) a b).mp hm
  rw [lookup_merchantTransactions] at hl
  by_cases hempty : Patterns.groupOf txs a = []
  · rw [Patterns.groupOf] at hempty
    rw [if_pos hempty] at hl
    exact absurd hl (by simp)
  · have hempty2 : ¬ ((txs.filter (fun t =>
        t.type = LocalStore.TransactionType.expense)).filter
        (fun t => t.description = a)) = [] := by
      rw [Patterns.groupOf] at hempty
      exact hempty
    rw [if_neg hempty2] at hl
    refine ⟨?_, hempty⟩
    rw [Patterns.groupOf]
    exact (Option.some_inj.mp hl).symm

theorem groupOf_mem_pos (txs : List LocalStore.Transaction) (m : String)
    (hpos : ∀ t ∈ txs, 0 < t.amount) :
    ∀ t ∈ Patterns.groupOf txs m, 0 < t.amount := by
  intro t ht
  rw [Patterns.groupOf] at ht
  exact hpos t (List.mem_of_mem_filter (List.mem_of_mem_filter ht))

end Helper

/-- C2 (amended): recurring-expense detection groups expense transactions by
    exact description; a merchant appears in the output exactly when its
    group has at least 2 occurrences and every amount is strictly within 10%
    of the group's mean (one outlier at or beyond 10% suppresses the group);
    a flagged group's annual cost is projected as mean x 12 when it has
    fewer than 3 occurrences and mean x (12/3) otherwise. -/
theorem recurring_detection_spec (txs : List LocalStore.Transaction)
    (hpos : ∀ t ∈ txs, 0 < t.amount) (m : String) :
    ((∃ e ∈ Patterns.potentialRecurring txs, e.merchant = m) ↔
      (2 ≤ (Patterns.groupOf txs m).length ∧
        ∀ t ∈ Patterns.groupOf txs m,
          |t.amount - Patterns.meanOf txs m| < Patterns.meanOf txs m / 10)) ∧
    (∀ e ∈ Patterns.potentialRecurring txs, e.merchant = m →
      e.frequency = (Patterns.groupOf txs m).length ∧
      e.avgAmount = Patterns.meanOf txs m ∧
      e.annualImpact = Patterns.meanOf txs m *
        (12 / (if (Patterns.groupOf txs m).length < 3 then 1 else 3))) := by
  have hnodup := Helper.nodup_keys_merchantTransactions txs
  have hgpos := Helper.groupOf_mem_pos txs m hpos
  constructor
  · constructor
    · rintro ⟨e, he, hmer⟩
      obtain ⟨⟨a, b⟩, hmg, hlen, rfl, hcons⟩ :=
        (Helper.mem_potentialRecurring_iff txs e).mp he
      have ha : a = m := hmer
      subst ha
      obtain ⟨hgeq, hgne⟩ := Helper.group_eq_of_mem txs a b hmg
      subst hgeq
      refine ⟨hlen, ?_⟩
      intro t ht
      have hw := (Helper.consistent_iff a _ hgpos hgne).mp hcons t ht
      rw [Helper.avg_mkRecurringEntry] at hw
      exact hw
    · rintro ⟨hlen, hwithin⟩
      have hgne : Patterns.groupOf txs m ≠ [] := by
        intro h
        rw [h] at hlen
        simp at hlen
      have hgne2 : ¬ ((txs.filter (fun t =>
          t.type = LocalStore.TransactionType.expense)).filter
          (fun t => t.description = m)) = [] := hgne
      have hlook : Helper.lookupGroup (Patterns.merchantTransactions txs) m =
          some (Patterns.groupOf txs m) := by
        rw [Helper.lookup_merchantTransactions, if_neg hgne2]
        rfl
      have hmem : (m, Patterns.groupOf txs m) ∈
          Patterns.merchantTransactions txs :=
        (Helper.mem_iff_lookup _ hnodup m _).mpr hlook
      have hcons : (Patterns.mkRecurringEntry m
          (Patterns.groupOf txs m)).consistent = true := by
        rw [Helper.consistent_iff m _ hgpos hgne]
        intro t ht
        rw [Helper.avg_mkRecurringEntry]
        exact hwithin t ht
      exact ⟨Patterns.mkRecurringEntry m (Patterns.groupOf txs m),
        (Helper.mem_potentialRecurring_iff txs _).mpr
          ⟨(m, Patterns.groupOf txs m), hmem, hlen, rfl, hcons⟩, rfl⟩
  · intro e he hmer
    obtain ⟨⟨a, b⟩, hmg, hlen, rfl, hcons⟩ :=
      (Helper.mem_potentialRecurring_iff txs e).mp he
    have ha : a = m := hmer
    subst ha
    obtain ⟨hgeq, hgne⟩ := Helper.group_eq_of_mem txs a b hmg
    subst hgeq
    refine ⟨rfl, ?_, ?_⟩
    · rw [Helper.avg_mkRecurringEntry]
      rfl
    · have himp : (Patterns.mkRecurringEntry a
          (Patterns.groupOf txs a)).annualImpact =
          (Patterns.mkRecurringEntry a (Patterns.groupOf txs a)).avgAmount *
            (12 / (if (Patterns.groupOf txs a).length < 3 then 1 else 3)) := by
        rw [Patterns.mkRecurringEntry]
      rw [himp, Helper.avg_mkRecurringEntry]
      rfl

/-- Witness for C2: the two Netflix expenses of 10 have positive amounts,
    and the detection flags the Netflix group. -/
theorem recurring_detection_spec_witness :
    (∀ t ∈ [cexRecurTx1, cexRecurTx2], 0 < t.amount) ∧
    (∃ e ∈ Patterns.potentialRecurring [cexRecurTx1, cexRecurTx2],
      e.merchant = "Netflix") := by
  have hpos : ∀ t ∈ [cexRecurTx1, cexRecurTx2], 0 < t.amount := by
    intro t ht
    fin_cases ht <;> norm_num [cexRecurTx1, cexRecurTx2]
  have hgrp : Patterns.groupOf [cexRecurTx1, cexRecurTx2] "Netflix" =
      [cexRecurTx1, cexRecurTx2] := by
    simp +decide [Patterns.groupOf, List.filter_cons, cexRecurTx1, cexRecurTx2]
  have hmean : Patterns.meanOf [cexRecurTx1, cexRecurTx2] "Netflix" = 10 := by
    rw [Patterns.meanOf, hgrp]
    norm_num [cexRecurTx1, cexRecurTx2]
  refine ⟨hpos, (recurring_detection_spec [cexRecurTx1, cexRecurTx2] hpos
    "Netflix").1.mpr ⟨?_, ?_⟩⟩
  · rw [hgrp]
    simp
  · intro t ht
    rw [hmean]
    rw [hgrp] at ht
    fin_cases ht <;> norm_num [cexRecurTx1, cexRecurTx2]
